import Mathlib

/-!
Shallow embedding of the loan-origination backend (`backend/server.py`) of the
FINAL repository, together with proofs of the frozen claims about it.

Numbers: the Python code computes over IEEE floats; the embedding uses `ℚ`
(exact arithmetic) so the algebra of the formulas can be settled exactly.
`round(x, 2)` is modelled as rounding `x * 100` to the nearest integer and
dividing back; no claim below depends on the tie-breaking convention.
Times (`datetime`) are modelled as integer seconds.
-/

namespace LoanEngine

/-- Python `round(x, 2)`: round to 2 decimal places. -/
def round2 (x : ℚ) : ℚ := (round (x * 100) : ℤ) / 100

/-- `OTP_EXPIRY_MINUTES = 5` (server.py line 52). -/
def OTP_EXPIRY_MINUTES : ℤ := 5

/-- `MAX_EMI_PERCENTAGE = 40` (server.py line 56). -/
def MAX_EMI_PERCENTAGE : ℚ := 40

/-- `MAX_DTI_RATIO = 60` (server.py line 57); renamed to avoid clashing
with Lean naming conventions. -/
def max_dti_ratio_limit : ℚ := 60

/-- `calculate_emi(principal, rate_annual, tenure_months)` (server.py
lines 276-282).  Note: the zero-rate branch returns `principal /
tenure_months` directly, without the `round(emi, 2)` applied in the
compound branch. -/
def calculate_emi (principal : ℚ) (rate_annual : ℚ) (tenure_months : ℕ) : ℚ :=
  let rate_monthly := rate_annual / (12 * 100)
  if rate_monthly = 0 then
    principal / tenure_months
  else
    round2 (principal * rate_monthly * ((1 + rate_monthly) ^ tenure_months) /
      (((1 + rate_monthly) ^ tenure_months) - 1))

/-- `(total_emi / monthly_income) * 100 if monthly_income > 0 else 0`
(server.py line 334). -/
def emi_percentage_raw (monthly_income total_emi : ℚ) : ℚ :=
  if monthly_income > 0 then (total_emi / monthly_income) * 100 else 0

/-- `dti_ratio` from annualized figures (server.py lines 337-339):
`total_annual_debt = total_emi * 12`, `annual_income = monthly_income * 12`,
`(total_annual_debt / annual_income) * 100 if annual_income > 0 else 0`. -/
def dti_ratio_raw (monthly_income total_emi : ℚ) : ℚ :=
  if monthly_income * 12 > 0 then ((total_emi * 12) / (monthly_income * 12)) * 100 else 0

/-- `max_emi_allowed = (monthly_income * MAX_EMI_PERCENTAGE / 100) - existing_emi`
(server.py line 342). -/
def max_emi_allowed (monthly_income existing_emi : ℚ) : ℚ :=
  monthly_income * MAX_EMI_PERCENTAGE / 100 - existing_emi

/-- The max-affordable-loan computation (server.py lines 343-349), before the
`round(_, 2)` applied when it is placed in the returned dict. -/
def max_affordable_loan_raw (monthly_income existing_emi : ℚ)
    (tenure_months : ℕ) (interest_rate : ℚ) : ℚ :=
  let m := max_emi_allowed monthly_income existing_emi
  if m > 0 then
    let rate_monthly := interest_rate / (12 * 100)
    if rate_monthly > 0 then
      m * (((1 + rate_monthly) ^ tenure_months) - 1) /
        (rate_monthly * ((1 + rate_monthly) ^ tenure_months))
    else
      m * tenure_months
  else 0

/-- The dict returned by `calculate_affordability` (server.py lines 353-365). -/
structure AffordabilityReport where
  is_affordable : Bool
  proposed_emi : ℚ
  total_emi : ℚ
  emi_percentage : ℚ
  dti_ratio : ℚ
  max_emi_percentage : ℚ
  max_dti_ratio : ℚ
  max_affordable_loan : ℚ
  monthly_income : ℚ
  existing_emi : ℚ
  recommendation : String
deriving Repr, DecidableEq

/-- `calculate_affordability(monthly_income, existing_emi, loan_amount,
tenure_months, interest_rate)` (server.py lines 328-365). -/
def calculate_affordability (monthly_income existing_emi loan_amount : ℚ)
    (tenure_months : ℕ) (interest_rate : ℚ) : AffordabilityReport :=
  let proposed_emi := calculate_emi loan_amount interest_rate tenure_months
  let total_emi := existing_emi + proposed_emi
  let emi_percentage := emi_percentage_raw monthly_income total_emi
  let dti_ratio := dti_ratio_raw monthly_income total_emi
  let max_affordable_loan :=
    max_affordable_loan_raw monthly_income existing_emi tenure_months interest_rate
  let is_affordable : Bool :=
    decide (emi_percentage ≤ MAX_EMI_PERCENTAGE) && decide (dti_ratio ≤ max_dti_ratio_limit)
  { is_affordable := is_affordable
    proposed_emi := round2 proposed_emi
    total_emi := round2 total_emi
    emi_percentage := round2 emi_percentage
    dti_ratio := round2 dti_ratio
    max_emi_percentage := MAX_EMI_PERCENTAGE
    max_dti_ratio := max_dti_ratio_limit
    max_affordable_loan := round2 max_affordable_loan
    monthly_income := monthly_income
    existing_emi := existing_emi
    recommendation := if is_affordable then "approved" else "consider_lower_amount" }

/-- Verification-flag / financial-profile snapshot of a stored user record,
restricted to the fields the underwriting agent and the OTP endpoints read
(server.py lines 111-137, 657-663).  `monthly_income = none` models an absent
`financial_profile.monthly_income`; the Python guard
`if financial_profile.get('monthly_income'):` is falsy both for an absent
field and for the value `0`, which the embedding reproduces. -/
structure UserState where
  credit_score : ℤ
  pre_approved_limit : ℚ
  phone_verified : Bool
  email_verified : Bool
  kyc_verified : Bool
  monthly_income : Option ℚ
  existing_emi : Option ℚ
  income_verified : Bool
deriving Repr, DecidableEq

/-- Loan-application status strings (server.py line 200). -/
inductive Status
  | pending
  | approved
  | rejected
  | requires_documents
  | requires_verification
deriving Repr, DecidableEq

/-- The result dict built by `underwriting_agent` (server.py lines 665-671). -/
structure Decision where
  approved : Bool
  status : Status
  message : String
  requires_documents : Bool
  requires_verification : Bool
deriving Repr, DecidableEq

/-- The Python truthiness test `if financial_profile.get('monthly_income'):`
(server.py line 689): true iff the field is present and non-zero. -/
def income_truthy : Option ℚ → Bool
  | none => false
  | some inc => decide (inc ≠ 0)

/-- The credit-score interest-rate tiering (server.py lines 691-698, also
lines 414-421 in `sales_agent`). -/
def tier_interest_rate (credit_score : ℤ) : ℚ :=
  if credit_score ≥ 800 then 10.5
  else if credit_score ≥ 750 then 11.5
  else if credit_score ≥ 700 then 12.5
  else 14.0

/-- `AgenticAIOrchestrator.underwriting_agent(loan_amount)` (server.py lines
657-740), as a pure function of the data it reads: the user record, whether a
`salary_slip` document exists for the user (the `db.documents.find_one` query
at lines 721-724), and the requested amount.  The message strings keep the
wording of the source; the `₹{x:,.0f}` currency formatting is rendered with
plain `toString` (no claim depends on message text). -/
def underwriting_agent (user : UserState) (has_salary_slip : Bool)
    (loan_amount : ℚ) : Decision :=
  if !user.phone_verified || !user.email_verified then
    { approved := false, status := .requires_verification
      message := "Please complete phone and email verification to proceed with your loan application."
      requires_documents := false, requires_verification := true }
  else if user.credit_score < 700 then
    { approved := false, status := .rejected
      message := "Application rejected: Credit score (" ++ toString user.credit_score ++
        ") is below minimum requirement of 700."
      requires_documents := false, requires_verification := false }
  else if loan_amount ≤ user.pre_approved_limit then
    if income_truthy user.monthly_income &&
        !(calculate_affordability (user.monthly_income.getD 0) (user.existing_emi.getD 0)
          loan_amount 36 (tier_interest_rate user.credit_score)).is_affordable then
      { approved := false, status := .rejected
        message := "Application rejected: Loan amount exceeds affordability. Maximum affordable amount: " ++
          toString (calculate_affordability (user.monthly_income.getD 0) (user.existing_emi.getD 0)
            loan_amount 36 (tier_interest_rate user.credit_score)).max_affordable_loan
        requires_documents := false, requires_verification := false }
    else
      { approved := true, status := .approved
        message := "Congratulations! Your loan of " ++ toString loan_amount ++ " is instantly approved."
        requires_documents := false, requires_verification := false }
  else if loan_amount ≤ 2 * user.pre_approved_limit then
    if has_salary_slip then
      { approved := true, status := .approved
        message := "Loan of " ++ toString loan_amount ++ " approved after document verification."
        requires_documents := false, requires_verification := false }
    else
      { approved := false, status := .requires_documents
        message := "Please upload your salary slip to proceed with " ++ toString loan_amount ++ " loan."
        requires_documents := true, requires_verification := false }
  else
    { approved := false, status := .rejected
      message := "Application rejected: Requested amount (" ++ toString loan_amount ++
        ") exceeds maximum eligible limit of " ++ toString (2 * user.pre_approved_limit) ++ "."
      requires_documents := false, requires_verification := false }

/-- The five-rule reference ladder exactly as the specification words it
(spec section 4.3 / claim C1), used only to be compared with
`underwriting_agent`.  Rule 3 runs the affordability check whenever monthly
income is *known* (present), as the spec says, where the code additionally
skips a present-but-zero income. -/
def spec_reference_ladder (user : UserState) (has_salary_slip : Bool)
    (amount : ℚ) : Status :=
  if !user.phone_verified || !user.email_verified then .requires_verification
  else if user.credit_score < 700 then .rejected
  else if amount ≤ user.pre_approved_limit then
    match user.monthly_income with
    | some inc =>
      if (calculate_affordability inc (user.existing_emi.getD 0) amount 36
          (tier_interest_rate user.credit_score)).is_affordable then .approved
      else .rejected
    | none => .approved
  else if amount ≤ 2 * user.pre_approved_limit then
    if has_salary_slip then .approved else .requires_documents
  else .rejected

/-- OTP type strings `'phone' | 'email'`; the `/otp/verify` endpoint rejects
any other string with HTTP 400 before touching state (server.py lines
931-932), so the two valid values are an enumeration. -/
inductive OtpType
  | phone
  | email
deriving Repr, DecidableEq

/-- An `otp_records` document (server.py lines 180-188).  `expires_at` is in
integer seconds; the record id and creation time are not needed by any claim
(the only mutation of a record, the `update_one` at lines 321-324, sits after
the raise at line 317 and is dead code, so stored records are never
modified). -/
structure OTPRecord where
  user_id : String
  otp_type : OtpType
  otp_code : String
  expires_at : ℤ
  verified : Bool
deriving Repr, DecidableEq

/-- The Mongo filter of `verify_otp` (server.py lines 306-311):
`{user_id, otp_type, otp_code, verified: False}`. -/
def otp_matches (r : OTPRecord) (uid : String) (typ : OtpType) (code : String) : Bool :=
  r.user_id = uid && r.otp_type = typ && r.otp_code = code && r.verified = false

/-- `create_otp(user_id, otp_type)` (server.py lines 288-302): inserts a fresh
record with `verified = False` and `expires_at = now + 5 minutes`.  The
randomly generated 6-digit code is passed in as a parameter. -/
def create_otp (store : List OTPRecord) (uid : String) (typ : OtpType)
    (code : String) (now : ℤ) : List OTPRecord :=
  store ++ [{ user_id := uid, otp_type := typ, otp_code := code
              expires_at := now + OTP_EXPIRY_MINUTES * 60, verified := false }]

/-- A raised Python exception. -/
inductive PyError
  | typeError
deriving Repr, DecidableEq

/-- `verify_otp(user_id, otp_type, otp_code)` (server.py lines 304-326):
`find_one` an unverified record with that exact code; if none matches, return
`False` (lines 313-314).  If a record matches, line 317 evaluates
`otp_record['expires_at'].replace('Z', '+00:00')`: `expires_at` was stored as
a `datetime` (line 295, inserted via `model_dump()` at line 297) and comes
back from Mongo as a `datetime`, whose `replace` method takes date
components, not strings — so the call raises `TypeError` before the expiry
comparison, the verified-flag `update_one` (lines 321-324) or `return True`
can execute.  The raise is modelled as `Except.error`; the lines after it are
dead code, so the store is never modified. -/
def verify_otp (store : List OTPRecord) (uid : String) (typ : OtpType)
    (code : String) : Except PyError (Bool × List OTPRecord) :=
  match store.find? (fun r => otp_matches r uid typ code) with
  | none => .ok (false, store)
  | some _ => .error .typeError

/-- A stored loan application, restricted to the fields claims reason about
(server.py lines 190-206). -/
structure LoanApp where
  id : String
  amount : ℚ
  tenure_months : ℕ
  interest_rate : ℚ
  status : Status
  emi : ℚ
  total_payable : ℚ
  updated_at : ℤ
  rejection_reason : Option String
  sanction_letter_path : Option String
deriving Repr, DecidableEq

/-- Per-user server state touched by the OTP endpoints and the document-upload
endpoint: the user record, the user's OTP records, the user's uploaded
document types (in insertion order), and the user's loan application. -/
structure SysState where
  user : UserState
  otps : List OTPRecord
  docs : List String
  loan : LoanApp
deriving Repr, DecidableEq

/-- `db.users.update_one({'$set': {'verification.{type}_verified': True}})`
(server.py lines 941-945). -/
def set_verified_flag (u : UserState) : OtpType → UserState
  | .phone => { u with phone_verified := true }
  | .email => { u with email_verified := true }

/-- Outcome of an HTTP endpoint call: a normal 200 response, an
`HTTPException` raised deliberately (4xx), or an uncaught Python exception
surfacing as a 500.  Each constructor carries the stored state as of that
point. -/
inductive EndpointResult
  | ok (s : SysState)
  | clientError (s : SysState)
  | serverError (s : SysState)
deriving Repr, DecidableEq

/-- The stored state after the call, whatever its HTTP outcome. -/
def EndpointResult.state : EndpointResult → SysState
  | .ok s => s
  | .clientError s => s
  | .serverError s => s

/-- The `/otp/verify` endpoint `verify_otp_endpoint` (server.py lines
925-960) for the current user `uid`: run `verify_otp`; an uncaught
`TypeError` from it propagates as a 500 with nothing written; when it
returns `False` the endpoint raises 400 `Invalid or expired OTP` (lines
937-938, no user write); when it returns `True` — dead in practice, since
`verify_otp` raises for every matched record — the endpoint sets the type's
verification flag and, if both phone and email are then verified,
`kyc_verified` (lines 941-954).  It writes to no other collection — in
particular it never touches `loan_applications`. -/
def verify_otp_endpoint (uid : String) (s : SysState) (typ : OtpType)
    (code : String) : EndpointResult :=
  match verify_otp s.otps uid typ code with
  | .error _ => .serverError s
  | .ok (false, store1) => .clientError { s with otps := store1 }
  | .ok (true, store1) =>
    let u1 := set_verified_flag s.user typ
    let u2 := if u1.phone_verified && u1.email_verified then
                { u1 with kyc_verified := true }
              else u1
    .ok { s with user := u2, otps := store1 }

/-- `db.documents.find_one({'user_id': ..., 'doc_type': 'salary_slip'})`
(server.py lines 721-724) as a predicate on the user's document types. -/
def has_salary_slip (docs : List String) : Bool :=
  docs.contains "salary_slip"

/-- The `$set` payload of the re-evaluation update inside `upload_document`
(server.py lines 1373-1385): overwrite `status` and `updated_at`, and
`rejection_reason` only when the fresh decision is a rejection. -/
def apply_reeval_update (loan : LoanApp) (uw : Decision) (now : ℤ) : LoanApp :=
  { loan with
    status := uw.status
    updated_at := now
    rejection_reason := if uw.status = .rejected then some uw.message else loan.rejection_reason }

/-- `sanction_letter_generator` (server.py lines 742-836) as it acts on the
stored application: when the application is approved it renders a PDF and
stores its path (`update_one` at lines 831-834); the PDF contents are not
modelled. -/
def record_sanction_letter (loan : LoanApp) : LoanApp :=
  { loan with sanction_letter_path := some ("sanction_letter_" ++ loan.id ++ ".pdf") }

/-- The `/documents/upload` endpoint `upload_document` (server.py lines
1312-1429) for the current user, after file validation: insert the document
record; if it is a `salary_slip`, set `financial_profile.income_verified`
(lines 1350-1354); then, if the upload is linked to the user's application
AND that application's status is `requires_documents` (line 1368), re-run
`underwriting_agent` on the fresh state and apply the status update, plus the
sanction letter when the fresh decision is an approval. -/
def upload_document (s : SysState) (doc_type : String) (linked : Bool)
    (now : ℤ) : SysState :=
  let docs1 := s.docs ++ [doc_type]
  let user1 := if doc_type = "salary_slip" then { s.user with income_verified := true }
               else s.user
  if linked && (s.loan.status == Status.requires_documents) then
    let uw := underwriting_agent user1 (has_salary_slip docs1) s.loan.amount
    let loan1 := apply_reeval_update s.loan uw now
    let loan2 := if uw.status = .approved then record_sanction_letter loan1 else loan1
    { s with user := user1, docs := docs1, loan := loan2 }
  else
    { s with user := user1, docs := docs1 }

/-- One state-changing call against the OTP/verification surface: an OTP
request (`/otp/send` or `/otp/resend`, which only insert a record — the
`{type}_otp_sent_at` timestamp write does not touch the three flags) or an
OTP verification attempt (`/otp/verify`). -/
inductive OtpOp
  | request (typ : OtpType) (code : String) (now : ℤ)
  | verify (typ : OtpType) (code : String)
deriving Repr, DecidableEq

/-- Apply one OTP-surface call for user `uid`; a verification attempt leaves
the state its endpoint ended in, whatever the HTTP outcome. -/
def apply_otp_op (uid : String) (s : SysState) : OtpOp → SysState
  | .request typ code now => { s with otps := create_otp s.otps uid typ code now }
  | .verify typ code => (verify_otp_endpoint uid s typ code).state

/-- Run a sequence of OTP-surface calls. -/
def run_otp_ops (uid : String) (s : SysState) (ops : List OtpOp) : SysState :=
  ops.foldl (apply_otp_op uid) s

/-! ### Helper lemmas -/

theorem round2_zero : round2 0 = 0 := by
  simp [round2]

theorem round2_nonneg {x : ℚ} (hx : 0 ≤ x) : 0 ≤ round2 x := by
  unfold round2
  have h : (0 : ℤ) ≤ round (x * 100) := by
    rw [round_eq]
    exact Int.le_floor.mpr (by push_cast; linarith)
  positivity

theorem round2_idem (x : ℚ) : round2 (round2 x) = round2 x := by
  unfold round2
  rw [div_mul_cancel₀ _ (by norm_num : (100 : ℚ) ≠ 0)]
  rw [round_intCast]

theorem abs_round2_sub_le (x : ℚ) : |round2 x - x| ≤ 1 / 200 := by
  unfold round2
  have h : |x * 100 - ((round (x * 100) : ℤ) : ℚ)| ≤ 1 / 2 := abs_sub_round (x * 100)
  have h1 : |((round (x * 100) : ℤ) : ℚ) - x * 100| ≤ 1 / 2 := by
    rw [abs_sub_comm]; exact h
  have h2 : ((round (x * 100) : ℤ) : ℚ) / 100 - x =
      (((round (x * 100) : ℤ) : ℚ) - x * 100) / 100 := by
    ring
  rw [h2, abs_div, abs_of_nonneg (by norm_num : (0:ℚ) ≤ 100)]
  linarith [h1]

theorem dti_raw_eq_emi_raw (mi t : ℚ) :
    dti_ratio_raw mi t = emi_percentage_raw mi t := by
  unfold dti_ratio_raw emi_percentage_raw
  by_cases h : mi > 0
  · have h12 : mi * 12 > 0 := by linarith
    rw [if_pos h12, if_pos h]
    rw [mul_comm t 12, mul_comm mi 12,
      mul_div_mul_left t mi (by norm_num : (12:ℚ) ≠ 0)]
  · have h12 : ¬ mi * 12 > 0 := by intro hc; nlinarith
    rw [if_neg h12, if_neg h]

theorem afford_income_nonpos {mi : ℚ} (ee la ir : ℚ) (n : ℕ) (hmi : mi ≤ 0) :
    (calculate_affordability mi ee la n ir).is_affordable = true := by
  unfold calculate_affordability
  have hng : ¬ mi > 0 := by linarith
  simp only [emi_percentage_raw, dti_ratio_raw, if_neg hng,
    if_neg (show ¬ mi * 12 > 0 by intro hc; nlinarith)]
  norm_num [MAX_EMI_PERCENTAGE, max_dti_ratio_limit]

/-! ### Claims -/

/-- C5 counterexample: the claim states that in all cases the returned value
of `calculate_emi` is rounded to 2 decimal places; at principal 1, rate 0,
tenure 3, the zero-rate branch returns `1/3` unrounded (`round(emi, 2)` is
applied only in the compound-rate branch). -/
theorem calculate_emi_not_always_rounded :
    round2 (calculate_emi 1 0 3) ≠ calculate_emi 1 0 3 := by
  have h1 : calculate_emi 1 0 3 = 1 / 3 := by norm_num [calculate_emi]
  have h2 : round2 (1 / 3 : ℚ) = 33 / 100 := by
    norm_num [round2, round_eq]
  rw [h1, h2]
  norm_num

/-- C5 (amended): for principal `P ≥ 0`, annual rate `r ≥ 0`, tenure `n ≥ 1`,
`calculate_emi P r n ≥ 0`; when the monthly rate is zero the result is exactly
`P / n` (no rounding); otherwise it is the compound formula
`P·r_m·(1+r_m)^n / ((1+r_m)^n − 1)` with `r_m = r/1200`, rounded to 2 decimal
places. -/
theorem calculate_emi_spec (P r : ℚ) (n : ℕ) (hP : 0 ≤ P) (hr : 0 ≤ r)
    (hn : 1 ≤ n) :
    0 ≤ calculate_emi P r n ∧
    (r = 0 → calculate_emi P r n = P / n) ∧
    (r ≠ 0 →
      calculate_emi P r n =
        round2 (P * (r / (12 * 100)) * ((1 + r / (12 * 100)) ^ n) /
          (((1 + r / (12 * 100)) ^ n) - 1)) ∧
      round2 (calculate_emi P r n) = calculate_emi P r n) := by
  by_cases hr0 : r = 0
  · subst hr0
    refine ⟨?_, fun _ => by norm_num [calculate_emi], fun h => absurd rfl h⟩
    norm_num [calculate_emi]
    positivity
  · have hrm : (0 : ℚ) < r / (12 * 100) := by
      have : (0:ℚ) < r := lt_of_le_of_ne hr (Ne.symm hr0)
      positivity
    have hrm0 : r / (12 * 100) ≠ 0 := ne_of_gt hrm
    have hq : 1 < (1 + r / (12 * 100)) ^ n := by
      apply one_lt_pow₀ (by linarith) (by omega)
    have hemi : calculate_emi P r n =
        round2 (P * (r / (12 * 100)) * ((1 + r / (12 * 100)) ^ n) /
          (((1 + r / (12 * 100)) ^ n) - 1)) := by
      unfold calculate_emi
      rw [if_neg hrm0]
    refine ⟨?_, fun h => absurd h hr0, fun _ => ⟨hemi, ?_⟩⟩
    · rw [hemi]
      apply round2_nonneg
      apply div_nonneg
      · have : (0:ℚ) ≤ (1 + r / (12 * 100)) ^ n := by positivity
        positivity
      · linarith
    · rw [hemi, round2_idem]

/-- C6: `calculate_affordability` is deterministic in its five inputs; its
`is_affordable` flag is true exactly when the computed EMI percentage is
`≤ 40` and the computed DTI ratio is `≤ 60`; the reported EMI percentage is 0
when monthly income is not positive; and the recommendation is `"approved"`
exactly when affordable, else `"consider_lower_amount"`. -/
theorem calculate_affordability_spec (mi ee la ir : ℚ) (n : ℕ) :
    (∀ mi' ee' la' ir' : ℚ, ∀ n' : ℕ, mi = mi' → ee = ee' → la = la' →
      ir = ir' → n = n' →
      calculate_affordability mi ee la n ir =
        calculate_affordability mi' ee' la' n' ir') ∧
    ((calculate_affordability mi ee la n ir).is_affordable = true ↔
      (emi_percentage_raw mi (ee + calculate_emi la ir n) ≤ 40 ∧
       dti_ratio_raw mi (ee + calculate_emi la ir n) ≤ 60)) ∧
    (mi ≤ 0 → (calculate_affordability mi ee la n ir).emi_percentage = 0) ∧
    ((calculate_affordability mi ee la n ir).recommendation =
      if (calculate_affordability mi ee la n ir).is_affordable then "approved"
      else "consider_lower_amount") := by
  refine ⟨?_, ?_, ?_, ?_⟩
  · intro mi' ee' la' ir' n' h1 h2 h3 h4 h5
    subst h1; subst h2; subst h3; subst h4; subst h5; rfl
  · unfold calculate_affordability
    simp only [MAX_EMI_PERCENTAGE, max_dti_ratio_limit, Bool.and_eq_true,
      decide_eq_true_eq]
  · intro hmi
    unfold calculate_affordability
    simp only [emi_percentage_raw, if_neg (show ¬ mi > 0 by linarith)]
    exact round2_zero
  · rfl

/-- C8: in every affordability report, the DTI ratio computed from annualized
figures equals the EMI percentage computed from monthly figures, and both are
0 when the monthly income is not positive. -/
theorem dti_ratio_eq_emi_percentage (mi ee la ir : ℚ) (n : ℕ) :
    (calculate_affordability mi ee la n ir).dti_ratio =
      (calculate_affordability mi ee la n ir).emi_percentage ∧
    (∀ t : ℚ, dti_ratio_raw mi t = emi_percentage_raw mi t) ∧
    (mi ≤ 0 → (calculate_affordability mi ee la n ir).dti_ratio = 0 ∧
      (calculate_affordability mi ee la n ir).emi_percentage = 0) := by
  refine ⟨?_, fun t => dti_raw_eq_emi_raw mi t, ?_⟩
  · unfold calculate_affordability
    simp only [dti_raw_eq_emi_raw]
  · intro hmi
    unfold calculate_affordability
    simp only [emi_percentage_raw, dti_ratio_raw,
      if_neg (show ¬ mi > 0 by linarith),
      if_neg (show ¬ mi * 12 > 0 by intro hc; nlinarith)]
    exact ⟨round2_zero, round2_zero⟩

/-- C9: the max-affordable-loan computation is the inverse of the EMI formula
at the same rate and tenure: it is 0 whenever
`maxEmiAllowed = monthlyIncome·0.40 − existingEmi ≤ 0`, and otherwise its EMI
at that rate and tenure reproduces `maxEmiAllowed` up to the 2-decimal
rounding of `calculate_emi` (within half a cent); the report stores the
2-decimal rounding of this value. -/
theorem max_affordable_loan_inverse (mi ee ir : ℚ) (n : ℕ) (hir : 0 ≤ ir)
    (hn : 1 ≤ n) :
    (max_emi_allowed mi ee ≤ 0 → max_affordable_loan_raw mi ee n ir = 0) ∧
    (0 < max_emi_allowed mi ee →
      |calculate_emi (max_affordable_loan_raw mi ee n ir) ir n -
        max_emi_allowed mi ee| ≤ 1 / 200) ∧
    (∀ la, (calculate_affordability mi ee la n ir).max_affordable_loan =
      round2 (max_affordable_loan_raw mi ee n ir)) := by
  refine ⟨?_, ?_, fun la => rfl⟩
  · intro hm
    unfold max_affordable_loan_raw
    rw [if_neg (by linarith)]
  · intro hm
    by_cases hir0 : ir = 0
    · subst hir0
      have hraw : max_affordable_loan_raw mi ee n 0 = max_emi_allowed mi ee * n := by
        unfold max_affordable_loan_raw
        rw [if_pos hm, if_neg (by norm_num)]
      have hn0 : ((n : ℚ)) ≠ 0 := Nat.cast_ne_zero.mpr (by omega)
      have hemi : calculate_emi (max_emi_allowed mi ee * n) 0 n =
          max_emi_allowed mi ee := by
        unfold calculate_emi
        rw [if_pos (by norm_num)]
        field_simp
      rw [hraw, hemi]
      simp
    · have hirpos : (0 : ℚ) < ir := lt_of_le_of_ne hir (Ne.symm hir0)
      have hrm : (0 : ℚ) < ir / (12 * 100) := by positivity
      have hq : 1 < (1 + ir / (12 * 100)) ^ n := by
        apply one_lt_pow₀ (by linarith) (by omega)
      have hq0 : ((1 + ir / (12 * 100)) ^ n) ≠ 0 := by positivity
      have hqm1 : ((1 + ir / (12 * 100)) ^ n) - 1 ≠ 0 := by linarith
      have hraw : max_affordable_loan_raw mi ee n ir =
          max_emi_allowed mi ee * (((1 + ir / (12 * 100)) ^ n) - 1) /
            (ir / (12 * 100) * ((1 + ir / (12 * 100)) ^ n)) := by
        unfold max_affordable_loan_raw
        rw [if_pos hm, if_pos hrm]
      have hemi : calculate_emi (max_affordable_loan_raw mi ee n ir) ir n =
          round2 (max_emi_allowed mi ee) := by
        unfold calculate_emi
        rw [if_neg (ne_of_gt hrm)]
        congr 1
        rw [hraw]
        have key : ∀ a b q : ℚ, b ≠ 0 → q ≠ 0 → q - 1 ≠ 0 →
            a * (q - 1) / (b * q) * b * q / (q - 1) = a := by
          intro a b q h1 h2 h3
          field_simp
          ring
        exact key _ _ _ (ne_of_gt hrm) hq0 hqm1
      rw [hemi]
      exact abs_round2_sub_le (max_emi_allowed mi ee)

/-- C1: the underwriting decision function agrees with the five-rule
reference ladder as the specification words it, for every user record,
document-presence flag and requested amount — in particular the credit floor
fires before the instant-approval rule, and an unverified phone or email
always yields `requires_verification`. -/
theorem underwriting_eq_spec_ladder (u : UserState) (hs : Bool) (la : ℚ) :
    (underwriting_agent u hs la).status = spec_reference_ladder u hs la := by
  unfold underwriting_agent spec_reference_ladder
  cases hmi : u.monthly_income with
  | none =>
    simp only [hmi, income_truthy]
    split_ifs <;> simp_all
  | some inc =>
    simp only [hmi, income_truthy]
    by_cases hinc : inc = 0
    · subst hinc
      have haff := @afford_income_nonpos 0 (u.existing_emi.getD 0) la
        (tier_interest_rate u.credit_score) 36 le_rfl
      split_ifs <;> simp_all
    · split_ifs <;> simp_all

/-- C10: every decision the underwriting function returns is internally
consistent: its status is one of the four final statuses (never the initial
`pending`), and its `approved` flag is true exactly when the status is
`approved`. -/
theorem underwriting_decision_consistent (u : UserState) (hs : Bool) (la : ℚ) :
    ((underwriting_agent u hs la).status = .approved ∨
     (underwriting_agent u hs la).status = .rejected ∨
     (underwriting_agent u hs la).status = .requires_documents ∨
     (underwriting_agent u hs la).status = .requires_verification) ∧
    ((underwriting_agent u hs la).approved = true ↔
      (underwriting_agent u hs la).status = .approved) := by
  unfold underwriting_agent
  split_ifs <;> simp

theorem find?_create_otp (store : List OTPRecord) (uid : String) (typ : OtpType)
    (code : String) (now : ℤ)
    (hfresh : ∀ r ∈ store, otp_matches r uid typ code = false) :
    (create_otp store uid typ code now).find? (fun r => otp_matches r uid typ code) =
      some ⟨uid, typ, code, now + OTP_EXPIRY_MINUTES * 60, false⟩ := by
  unfold create_otp
  rw [List.find?_append]
  have hnone : store.find? (fun r => otp_matches r uid typ code) = none :=
    List.find?_eq_none.mpr (fun x hx => by simp [hfresh x hx])
  rw [hnone]
  simp [otp_matches]

/-- C3 (code bug): the claim (and spec section 4.2) describes the intended
behaviour, but `verify_otp` cannot exhibit it: whenever the filter matches a
record — exactly the success case and the expired case the claim is about —
line 317 raises `TypeError` before anything is returned or written, so a
freshly issued, unexpired code never verifies, no record is ever marked
verified, and an expired attempt raises instead of returning false.  Only the
no-match case returns, with `False`. -/
theorem otp_verify_always_raises (store : List OTPRecord) (uid : String)
    (typ : OtpType) (code : String) (now : ℤ)
    (hfresh : ∀ r ∈ store, otp_matches r uid typ code = false) :
    verify_otp (create_otp store uid typ code now) uid typ code =
      Except.error PyError.typeError ∧
    verify_otp store uid typ code = Except.ok (false, store) := by
  constructor
  · unfold verify_otp
    rw [find?_create_otp store uid typ code now hfresh]
  · unfold verify_otp
    rw [List.find?_eq_none.mpr (fun x hx => by simp [hfresh x hx])]

theorem otp_op_user_unchanged (uid : String) (s : SysState) (op : OtpOp) :
    (apply_otp_op uid s op).user = s.user := by
  cases op with
  | request typ code now => rfl
  | verify typ code =>
    simp only [apply_otp_op, verify_otp_endpoint, verify_otp]
    cases hf : s.otps.find? (fun r => otp_matches r uid typ code) <;>
      simp [hf, EndpointResult.state]

/-- C4 (code bug): the claim (and spec section 4.2) describes the intended
behaviour, but the flag-writing branch of the verify endpoint (server.py
lines 941-954) is unreachable — `verify_otp` raises `TypeError` for every
matched record, so the endpoint only ever raises 400 or 500.  Hence no
sequence of OTP requests and verification attempts — the only operations that
write the verification flags — changes the user record at all:
`phone_verified`, `email_verified` and `kyc_verified` stay exactly as they
were, and a fresh user's `kyc_verified` can never become true by verifying
both OTPs as the claim requires. -/
theorem otp_surface_never_changes_user (uid : String) (s : SysState) :
    (∀ ops : List OtpOp, (run_otp_ops uid s ops).user = s.user) ∧
    (∀ (typ : OtpType) (code : String) (s' : SysState),
      verify_otp_endpoint uid s typ code ≠ EndpointResult.ok s') := by
  constructor
  · intro ops
    induction ops generalizing s with
    | nil => rfl
    | cons op rest ih =>
      calc (run_otp_ops uid s (op :: rest)).user
          = (apply_otp_op uid s op).user := ih (apply_otp_op uid s op)
        _ = s.user := otp_op_user_unchanged uid s op
  · intro typ code s'
    simp only [verify_otp_endpoint, verify_otp]
    cases hf : s.otps.find? (fun r => otp_matches r uid typ code) <;> simp [hf]

/-- C7: re-evaluation (the only path that rewrites a stored application:
the `upload_document` flow, including the sanction-letter write-back) never
changes the application's amount, tenure, or interest rate. -/
theorem reevaluation_preserves_loan_terms (s : SysState) (d : String)
    (linked : Bool) (now : ℤ) :
    (upload_document s d linked now).loan.amount = s.loan.amount ∧
    (upload_document s d linked now).loan.tenure_months = s.loan.tenure_months ∧
    (upload_document s d linked now).loan.interest_rate = s.loan.interest_rate := by
  by_cases hg : (linked && (s.loan.status == Status.requires_documents)) = true
  · by_cases happr :
      (underwriting_agent
        (if d = "salary_slip" then { s.user with income_verified := true } else s.user)
        (has_salary_slip (s.docs ++ [d])) s.loan.amount).status = Status.approved
    · simp [upload_document, hg, happr, record_sanction_letter, apply_reeval_update]
    · simp [upload_document, hg, happr, apply_reeval_update]
  · simp [upload_document, hg]

theorem upload_document_user_eq (s : SysState) (d : String) (linked : Bool)
    (now : ℤ) :
    (upload_document s d linked now).user =
      (if d = "salary_slip" then { s.user with income_verified := true } else s.user) := by
  unfold upload_document
  by_cases hg : (linked && s.loan.status == Status.requires_documents) = true <;>
    by_cases hd : d = "salary_slip" <;> simp [hg, hd]

theorem upload_document_docs_eq (s : SysState) (d : String) (linked : Bool)
    (now : ℤ) :
    (upload_document s d linked now).docs = s.docs ++ [d] := by
  unfold upload_document
  by_cases hg : (linked && s.loan.status == Status.requires_documents) = true <;>
    by_cases hd : d = "salary_slip" <;> simp [hg, hd]

theorem upload_document_loan_guard (s : SysState) (d : String) (linked : Bool)
    (now : ℤ)
    (hg : (linked && (s.loan.status == Status.requires_documents)) = true) :
    (upload_document s d linked now).loan =
      (if (underwriting_agent
            (if d = "salary_slip" then { s.user with income_verified := true } else s.user)
            (has_salary_slip (s.docs ++ [d])) s.loan.amount).status = Status.approved
       then record_sanction_letter (apply_reeval_update s.loan
              (underwriting_agent
                (if d = "salary_slip" then { s.user with income_verified := true } else s.user)
                (has_salary_slip (s.docs ++ [d])) s.loan.amount) now)
       else apply_reeval_update s.loan
              (underwriting_agent
                (if d = "salary_slip" then { s.user with income_verified := true } else s.user)
                (has_salary_slip (s.docs ++ [d])) s.loan.amount) now) := by
  unfold upload_document
  simp only [hg, if_true]

theorem upload_document_loan_no_guard (s : SysState) (d : String) (linked : Bool)
    (now : ℤ)
    (hg : (linked && (s.loan.status == Status.requires_documents)) = false) :
    (upload_document s d linked now).loan = s.loan := by
  unfold upload_document
  simp only [hg, Bool.false_eq_true, if_false]

theorem upload_document_loan_amount (s : SysState) (d : String) (linked : Bool)
    (now : ℤ) :
    (upload_document s d linked now).loan.amount = s.loan.amount := by
  cases hg : (linked && (s.loan.status == Status.requires_documents)) with
  | false => rw [upload_document_loan_no_guard s d linked now hg]
  | true =>
    rw [upload_document_loan_guard s d linked now hg, apply_ite LoanApp.amount]
    simp [record_sanction_letter, apply_reeval_update]

theorem upload_document_loan_status (s : SysState) (d : String) (linked : Bool)
    (now : ℤ)
    (hg : (linked && (s.loan.status == Status.requires_documents)) = true) :
    (upload_document s d linked now).loan.status =
      (underwriting_agent
        (if d = "salary_slip" then { s.user with income_verified := true } else s.user)
        (has_salary_slip (s.docs ++ [d])) s.loan.amount).status := by
  rw [upload_document_loan_guard s d linked now hg, apply_ite LoanApp.status]
  simp [record_sanction_letter, apply_reeval_update]

theorem has_salary_slip_append_self (l : List String) (d : String) :
    has_salary_slip (l ++ [d] ++ [d]) = has_salary_slip (l ++ [d]) := by
  simp [has_salary_slip, List.contains_eq_any_beq]

/-- A fully verified user (credit 780, limit 300000, no income on file)
holding an application for 250000 stuck in `requires_verification`. -/
def sample_state_rv : SysState :=
  { user := { credit_score := 780, pre_approved_limit := 300000,
              phone_verified := true, email_verified := true,
              kyc_verified := true, monthly_income := none,
              existing_emi := none, income_verified := false },
    otps := [], docs := [],
    loan := { id := "L2", amount := 250000, tenure_months := 24,
              interest_rate := 11.5, status := Status.requires_verification,
              emi := 0, total_payable := 0, updated_at := 0,
              rejection_reason := none, sanction_letter_path := none } }

/-- C2 counterexample: new evidence for an application in
`requires_verification` does not re-evaluate it.  A fully verified user with
an application for 250000 stuck in `requires_verification` uploads a
salary-slip document linked to it: the stored application is left completely
unchanged (the re-evaluation guard at server.py line 1368 fires only for
`requires_documents`), even though a fresh run of the ladder on the new state
would return `approved` — the claim's demanded overwrite does not happen. -/
theorem upload_ignores_requires_verification :
    (upload_document sample_state_rv "salary_slip" true 7).loan =
      sample_state_rv.loan ∧
    sample_state_rv.loan.status = Status.requires_verification ∧
    (underwriting_agent (upload_document sample_state_rv "salary_slip" true 7).user
      (has_salary_slip (upload_document sample_state_rv "salary_slip" true 7).docs)
      sample_state_rv.loan.amount).status = Status.approved := by
  refine ⟨?_, rfl, ?_⟩
  · exact upload_document_loan_no_guard _ _ _ _ (by rfl)
  · rw [upload_document_user_eq, upload_document_docs_eq]
    norm_num [sample_state_rv, underwriting_agent, income_truthy, has_salary_slip]

/-- C2 (amended): only a document upload triggers re-evaluation, and only when
the linked application's status is `requires_documents`; the ladder is then
re-run with fresh inputs and the stored status is overwritten (the rejection
reason too when the fresh decision is a rejection); uploading the same
document again — unchanged inputs — yields the same status (idempotent); and
an OTP verification attempt never changes the stored application at all,
whatever its HTTP outcome (it raises 500 on a matched record, 400 otherwise,
and touches only users/otp_records) — in particular an application in
`requires_verification` is never re-evaluated. -/
theorem reevaluation_on_upload_spec (uid : String) (s : SysState) (d : String)
    (linked : Bool) (now : ℤ) :
    (linked = true → s.loan.status = Status.requires_documents →
      ((upload_document s d linked now).loan.status =
        (underwriting_agent (upload_document s d linked now).user
          (has_salary_slip (upload_document s d linked now).docs)
          s.loan.amount).status ∧
       ((underwriting_agent (upload_document s d linked now).user
          (has_salary_slip (upload_document s d linked now).docs)
          s.loan.amount).status = Status.rejected →
        (upload_document s d linked now).loan.rejection_reason =
          some (underwriting_agent (upload_document s d linked now).user
            (has_salary_slip (upload_document s d linked now).docs)
            s.loan.amount).message))) ∧
    (¬ (linked = true ∧ s.loan.status = Status.requires_documents) →
      (upload_document s d linked now).loan = s.loan) ∧
    ((upload_document (upload_document s d linked now) d linked now).loan.status =
      (upload_document s d linked now).loan.status) ∧
    (∀ (typ : OtpType) (code : String),
      (verify_otp_endpoint uid s typ code).state.loan = s.loan) := by
  refine ⟨?_, ?_, ?_, ?_⟩
  · intro hl hrd
    have hg : (linked && (s.loan.status == Status.requires_documents)) = true := by
      simp [hl, hrd]
    rw [upload_document_user_eq, upload_document_docs_eq]
    constructor
    · exact upload_document_loan_status s d linked now hg
    · intro hrej
      rw [upload_document_loan_guard s d linked now hg]
      rw [if_neg (by rw [hrej]; intro hc; cases hc)]
      simp [apply_reeval_update, hrej]
  · intro hng
    apply upload_document_loan_no_guard
    cases hl : linked with
    | false => simp
    | true =>
      cases hst : (s.loan.status == Status.requires_documents) with
      | false => simp
      | true => exact absurd ⟨hl, by exact beq_iff_eq.mp hst⟩ hng
  · cases hg : (linked && (s.loan.status == Status.requires_documents)) with
    | false =>
      have h1 := upload_document_loan_no_guard s d linked now hg
      have hg2 : (linked &&
          ((upload_document s d linked now).loan.status == Status.requires_documents)) = false := by
        rw [h1]; exact hg
      rw [upload_document_loan_no_guard _ d linked now hg2]
    | true =>
      have hst := upload_document_loan_status s d linked now hg
      by_cases hrd2 : (underwriting_agent
          (if d = "salary_slip" then { s.user with income_verified := true } else s.user)
          (has_salary_slip (s.docs ++ [d])) s.loan.amount).status =
          Status.requires_documents
      · have hg2 : (linked &&
            ((upload_document s d linked now).loan.status == Status.requires_documents)) = true := by
          rw [hst, hrd2]
          simp only [Bool.and_eq_true] at hg
          simp [hg.1]
        rw [upload_document_loan_status _ d linked now hg2]
        rw [upload_document_user_eq, upload_document_docs_eq,
          upload_document_loan_amount]
        have huser2 : (if d = "salary_slip" then
            { (if d = "salary_slip" then { s.user with income_verified := true } else s.user)
              with income_verified := true }
            else (if d = "salary_slip" then { s.user with income_verified := true } else s.user)) =
            (if d = "salary_slip" then { s.user with income_verified := true } else s.user) := by
          by_cases hd : d = "salary_slip" <;> simp [hd]
        rw [huser2, has_salary_slip_append_self, hst]
      · have hg2 : (linked &&
            ((upload_document s d linked now).loan.status == Status.requires_documents)) = false := by
          rw [hst]
          simp [hrd2]
        rw [upload_document_loan_no_guard _ d linked now hg2]
  · intro typ code
    simp only [verify_otp_endpoint, verify_otp]
    cases hf : s.otps.find? (fun r => otp_matches r uid typ code) <;>
      simp [hf, EndpointResult.state]

/-! ### Concrete states used by the witness theorems -/

/-- A freshly registered user: flags all false, no financial profile
(server.py lines 848-861). -/
def fresh_user : UserState :=
  { credit_score := 780, pre_approved_limit := 300000, phone_verified := false,
    email_verified := false, kyc_verified := false, monthly_income := none,
    existing_emi := none, income_verified := false }

/-- A stored application waiting on documents. -/
def sample_loan_rd : LoanApp :=
  { id := "L1", amount := 500000, tenure_months := 24, interest_rate := 11.5,
    status := Status.requires_documents, emi := 0, total_payable := 0,
    updated_at := 0, rejection_reason := none, sanction_letter_path := none }

/-- A fully verified user holding `sample_loan_rd`. -/
def sample_state_rd : SysState :=
  { user := { fresh_user with phone_verified := true, email_verified := true, kyc_verified := true },
    otps := [], docs := [], loan := sample_loan_rd }

/-! ### Witnesses -/

/-- Witness for C5 at principal 100000, rate 12, tenure 24. -/
theorem calculate_emi_spec_witness : 0 ≤ calculate_emi 100000 12 24 :=
  (calculate_emi_spec 100000 12 24 (by norm_num) (by norm_num) (by norm_num)).1

/-- Witness for C6 at a non-positive income. -/
theorem calculate_affordability_spec_witness :
    (calculate_affordability (-1) 0 100 12 10).emi_percentage = 0 :=
  (calculate_affordability_spec (-1) 0 100 10 12).2.2.1 (by norm_num)

/-- Witness for C8 at a non-positive income. -/
theorem dti_ratio_eq_emi_percentage_witness :
    (calculate_affordability (-2) 0 50 6 9).dti_ratio = 0 ∧
    (calculate_affordability (-2) 0 50 6 9).emi_percentage = 0 :=
  (dti_ratio_eq_emi_percentage (-2) 0 50 9 6).2.2 (by norm_num)

/-- Witness for C9: income 100, no existing EMI, rate 12, tenure 12. -/
theorem max_affordable_loan_inverse_witness :
    |calculate_emi (max_affordable_loan_raw 100 0 12 12) 12 12 -
      max_emi_allowed 100 0| ≤ 1 / 200 :=
  (max_affordable_loan_inverse 100 0 12 12 (by norm_num) (by norm_num)).2.1
    (by norm_num [max_emi_allowed, MAX_EMI_PERCENTAGE])

/-- Witness for C3 (code bug): a correct OTP freshly issued at time 0 into an
empty store raises `TypeError` on the verify attempt instead of verifying. -/
theorem otp_verify_always_raises_witness :
    verify_otp (create_otp [] "u1" OtpType.phone "123456" 0)
      "u1" OtpType.phone "123456" = Except.error PyError.typeError :=
  (otp_verify_always_raises [] "u1" OtpType.phone "123456" 0 (by simp)).1

/-- Witness for C2 (amended): uploading a salary slip linked to an
application in `requires_documents` stores exactly the fresh ladder
status. -/
theorem reevaluation_on_upload_spec_witness :
    (upload_document sample_state_rd "salary_slip" true 5).loan.status =
      (underwriting_agent (upload_document sample_state_rd "salary_slip" true 5).user
        (has_salary_slip (upload_document sample_state_rd "salary_slip" true 5).docs)
        sample_state_rd.loan.amount).status :=
  ((reevaluation_on_upload_spec "u1" sample_state_rd "salary_slip" true 5).1
    rfl (by rfl)).1

end LoanEngine
